import Mathlib

/-!
Verification of the `twenty_percent` repository: a notebook
(`twenty_percent/training_guide.ipynb`) embedding a CPU training script
(`cpu_trainer.py`) for GPT-2, plus a `Makefile` task-runner.

The script's bespoke pieces are shallowly embedded here:
  * `custom_data_collator` (the diagnostic batch collator) over a small model
    of Python values, where tensors are represented by their shapes — the
    only attribute the collator inspects or that `torch.stack` needs;
  * `tokenize_function` over an abstract tokenizer satisfying the
    `max_length=32, truncation=True, padding="max_length"` contract;
  * the hardcoded `mini_data` list, the `TrainingArguments` construction,
    the environment-variable instructions, the pip-install cell, the
    script's top-level call sequence, and the Makefile targets, all as data.
-/

set_option autoImplicit false

/-- Python exceptions that can arise in `custom_data_collator`: `TypeError`
and `RuntimeError` from `torch.stack` (and from indexing a non-dict with a
string key), `KeyError` from dict lookup, `IndexError` from list indexing. -/
inductive PyError where
  | typeError (msg : String)
  | runtimeError (msg : String)
  | keyError (key : String)
  | indexError (msg : String)
deriving DecidableEq, Repr

/-- A Python value as seen by the collator: a `torch.Tensor` (represented by
its shape, the only attribute the collator and `torch.stack` dispatch on), a
Python list, or some other object carrying its type name and `repr` string. -/
inductive PyObj where
  | tensor (shape : List Nat)
  | pylist (elems : List PyObj)
  | other (typeName : String) (reprStr : String)

/-- A single feature handed to the collator: either a dict (association list
preserving Python's insertion order) or a non-dict object. -/
inductive PyFeature where
  | dict (entries : List (String × PyObj))
  | nondict (typeName : String) (reprStr : String)

/-- Rendering of `type(v)` as Python prints it. -/
def pyTypeName : PyObj → String
  | .tensor _ => "<class 'torch.Tensor'>"
  | .pylist _ => "<class 'list'>"
  | .other t _ => "<class '" ++ t ++ "'>"

/-- The short type name used in `torch.stack`'s TypeError message. -/
def stackTypeName : PyObj → String
  | .tensor _ => "Tensor"
  | .pylist _ => "list"
  | .other t _ => t

/-- Rendering of `type(f)` for a feature. -/
def featureTypeName : PyFeature → String
  | .dict _ => "<class 'dict'>"
  | .nondict t _ => "<class '" ++ t ++ "'>"

mutual

/-- Approximation of Python `repr` for the modelled values (tensors carry no
element data in the model, so their repr is abbreviated). -/
def pyReprStr : PyObj → String
  | .tensor _ => "tensor(...)"
  | .pylist xs => "[" ++ pyReprList xs ++ "]"
  | .other _ r => r

/-- Comma-separated reprs of a list's elements. -/
def pyReprList : List PyObj → String
  | [] => ""
  | [x] => pyReprStr x
  | x :: xs => pyReprStr x ++ ", " ++ pyReprList xs

end

/-- Rendering of a `torch.Size` as Python prints a tensor's `.shape`. -/
def showSize (s : List Nat) : String :=
  "torch.Size([" ++ String.intercalate ", " (s.map toString) ++ "])"

/-- The `.shape` print of a stacked result (always a tensor). -/
def showSizeOf : PyObj → String
  | .tensor s => showSize s
  | v => pyReprStr v

/-- Index and value of the first element of the list that is not a tensor,
counting from `i` — the element `torch.stack` names in its TypeError. -/
def firstNonTensorIdx : List PyObj → Nat → Option (Nat × PyObj)
  | [], _ => none
  | .tensor _ :: rest, i => firstNonTensorIdx rest (i + 1)
  | x :: _, i => some (i, x)

/-- Shapes of the tensors in the list (non-tensors skipped; callers only use
this once every element is known to be a tensor). -/
def shapesOf : List PyObj → List (List Nat)
  | [] => []
  | .tensor s :: rest => s :: shapesOf rest
  | _ :: rest => shapesOf rest

/-- Index (from `i`) and shape of the first shape differing from `s0`. -/
def firstShapeMismatch (s0 : List Nat) : List (List Nat) → Nat → Option (Nat × List Nat)
  | [], _ => none
  | s :: rest, i =>
    if s = s0 then firstShapeMismatch s0 rest (i + 1) else some (i, s)

/-- `torch.stack` on a list of Python values: `RuntimeError` on an empty
list, `TypeError` naming the first non-tensor element, `RuntimeError` on the
first shape mismatch, otherwise a tensor with the batch dimension prepended. -/
def torchStack (xs : List PyObj) : Except PyError PyObj :=
  match xs with
  | [] => .error (.runtimeError "stack expects a non-empty TensorList")
  | _ :: _ =>
    match firstNonTensorIdx xs 0 with
    | some (i, v) =>
      .error (.typeError ("expected Tensor as element " ++ toString i ++
        " in argument 0, but got " ++ stackTypeName v))
    | none =>
      match shapesOf xs with
      | [] => .error (.runtimeError "stack expects a non-empty TensorList")
      | s0 :: rest =>
        match firstShapeMismatch s0 rest 1 with
        | some (i, si) =>
          .error (.runtimeError ("stack expects each tensor to be equal size, but got " ++
            showSize s0 ++ " at entry 0 and " ++ showSize si ++ " at entry " ++ toString i))
        | none => .ok (.tensor (xs.length :: s0))

/-- First-match lookup in a dict's association list. -/
def dictLookup (entries : List (String × PyObj)) (key : String) : Option PyObj :=
  match entries with
  | [] => none
  | (k, v) :: rest => if k = key then some v else dictLookup rest key

/-- Python `f[key]`: dict lookup (KeyError when absent) or, on a non-dict,
the TypeError raised by indexing with a string. -/
def getItem (f : PyFeature) (key : String) : Except PyError PyObj :=
  match f with
  | .dict entries =>
    match dictLookup entries key with
    | some v => .ok v
    | none => .error (.keyError key)
  | .nondict t _ =>
    .error (.typeError (t ++ " indices must be integers or slices, not str"))

/-- The comprehension `[f[key] for f in features]`; the first indexing error
aborts it, and the error propagates (it happens outside the collator's
try/except around `torch.stack`). -/
def getElements (features : List PyFeature) (key : String) : Except PyError (List PyObj) :=
  match features with
  | [] => .ok []
  | f :: rest =>
    match getItem f key with
    | .error e => .error e
    | .ok v =>
      match getElements rest key with
      | .error e => .error e
      | .ok vs => .ok (v :: vs)

/-- `features[0][key]`, as evaluated by the collator's first per-key print. -/
def firstFeatureItem (features : List PyFeature) (key : String) : Except PyError PyObj :=
  match features with
  | [] => .error (.indexError "list index out of range")
  | f :: _ => getItem f key

/-- The prints inside `if elements_for_stack:` of the collator: the type of
the first element and, depending on that type, its inner type and value, its
shape, or its value. -/
def elementInfoPrints (elems : List PyObj) : List String :=
  match elems with
  | [] => []
  | e0 :: _ =>
    ["  Type of 'elements_for_stack[0]': " ++ pyTypeName e0] ++
    (match e0 with
     | .pylist inner =>
       ["  Type of 'elements_for_stack[0][0]': " ++
          (match inner with
           | [] => "empty list"
           | x :: _ => pyTypeName x),
        "  Value of 'elements_for_stack[0]': " ++ pyReprStr e0]
     | .tensor s => ["  Shape of 'elements_for_stack[0]': " ++ showSize s]
     | .other _ _ => ["  Value of 'elements_for_stack[0]': " ++ pyReprStr e0])

/-- One iteration of the collator's `for key in features[0].keys()` loop:
returns the lines printed and either a propagating error, `some` stacked
tensor assigned to `batch[key]`, or `none` when a `TypeError` from
`torch.stack` was caught, printed, and suppressed (the key is skipped). -/
def collateKey (features : List PyFeature) (key : String) :
    List String × Except PyError (Option PyObj) :=
  let header := "\n  --- Key: '" ++ key ++ "' ---"
  match firstFeatureItem features key with
  | .error e => ([header], .error e)
  | .ok v0 =>
    let p1 := [header, "  Type of 'features[0][key]': " ++ pyTypeName v0]
    match getElements features key with
    | .error e => (p1, .error e)
    | .ok elems =>
      let p2 := p1 ++ ["  Type of 'elements_for_stack': <class 'list'>"] ++
        elementInfoPrints elems
      match torchStack elems with
      | .ok t =>
        (p2 ++ ["  'batch[key]' stacked successfully. Type: " ++ pyTypeName t ++
          ", Shape: " ++ showSizeOf t], .ok (some t))
      | .error (.typeError m) =>
        (p2 ++ ["  TypeError during torch.stack for key '" ++ key ++ "': " ++ m],
         .ok none)
      | .error e => (p2, .error e)

/-- The collator's key loop over `features[0].keys()`: accumulates the batch
in insertion order, skips keys whose stack raised a caught `TypeError`, and
propagates any other error with the prints produced so far. -/
def collateKeys (features : List PyFeature) :
    List String → List String × Except PyError (List (String × PyObj))
  | [] => ([], .ok [])
  | k :: ks =>
    match collateKey features k, collateKeys features ks with
    | (ps, .error e), _ => (ps, .error e)
    | (ps, .ok none), (ps2, r2) => (ps ++ ps2, r2)
    | (ps, .ok (some _)), (ps2, .error e) => (ps ++ ps2, .error e)
    | (ps, .ok (some t)), (ps2, .ok b) => (ps ++ ps2, .ok ((k, t) :: b))

/-- `custom_data_collator` from `cpu_trainer.py` (embedded in the notebook):
returns the lines it prints together with either the batch dict it returns
or the uncaught exception that propagates to the caller. -/
def custom_data_collator (features : List PyFeature) :
    List String × Except PyError (List (String × PyObj)) :=
  let p0 := ["\n--- Inside data collator ---", "Type of 'features': <class 'list'>"]
  match features with
  | [] => (p0 ++ ["--- End data collator ---\n"], .ok [])
  | f0 :: rest =>
    let p1 := p0 ++ ["Length of 'features': " ++ toString (f0 :: rest).length,
      "Type of 'features[0]': " ++ featureTypeName f0]
    match f0 with
    | .dict entries =>
      match collateKeys (f0 :: rest) (entries.map Prod.fst) with
      | (ps, .ok b) => (p1 ++ ps ++ ["--- End data collator ---\n"], .ok b)
      | (ps, .error e) => (p1 ++ ps, .error e)
    | .nondict _ _ =>
      (p1 ++ ["  'features[0]' is NOT a dictionary!", "--- End data collator ---\n"],
       .ok [])

/-- Modelled from the spec: the framework's default stack-based collation —
"a dict with the same keys, each mapped to `torch.stack` of that key's
tensors across the features". The keys are those of the first feature;
the first error aborts. Not a dict of features yields an empty batch. -/
def stackAllKeys (features : List PyFeature) :
    List String → Except PyError (List (String × PyObj))
  | [] => .ok []
  | k :: ks =>
    match getElements features k with
    | .error e => .error e
    | .ok es =>
      match torchStack es with
      | .error e => .error e
      | .ok t =>
        match stackAllKeys features ks with
        | .error e => .error e
        | .ok b => .ok ((k, t) :: b)

/-- Modelled from the spec: the batch "the framework would do by default" —
each key of the first feature mapped to the stack of that key's values. -/
def default_stack_collation (features : List PyFeature) :
    Except PyError (List (String × PyObj)) :=
  match features with
  | .dict entries :: _ => stackAllKeys features (entries.map Prod.fst)
  | _ => .ok []

/-- An example record of `mini_data`: a dict with a single `"text"` key. -/
structure TextRecord where
  text : String

/-- The hardcoded `mini_data` list from `cpu_trainer.py`. -/
def mini_data : List TextRecord :=
  [{ text := "The quick brown fox" },
   { text := "jumps over the lazy" },
   { text := "dog. This is a test." },
   { text := "Another example sentence." }]

/-- Output of the tokenizer call inside `tokenize_function` (after the
`.squeeze(0)` that drops the batch dimension of the returned tensors). -/
structure TokenizedInputs where
  input_ids : List Nat
  attention_mask : List Nat

/-- The tokenizer call of `tokenize_function` with its literal arguments
`max_length=32, truncation=True, padding="max_length"`, over an abstract raw
encoding `encode : String → List Nat` (the GPT-2 vocabulary lookup is
framework-owned): truncate the encoding to 32 tokens, pad with the pad token
(set to `eos_token` in the script) up to length 32, and mask real tokens
with 1 and padding with 0. -/
def tokenizerCall (encode : String → List Nat) (padTokenId : Nat)
    (text : String) : TokenizedInputs :=
  let ids := (encode text).take 32
  { input_ids := ids ++ List.replicate (32 - ids.length) padTokenId,
    attention_mask := List.replicate ids.length 1 ++
      List.replicate (32 - ids.length) 0 }

/-- A tokenized example as `tokenize_function` returns it: the tokenizer's
fields plus `labels`. -/
structure TokenizedExample where
  input_ids : List Nat
  attention_mask : List Nat
  labels : List Nat

/-- `tokenize_function` from `cpu_trainer.py`: tokenize `example["text"]`
with fixed truncation/padding to length 32, then set
`labels = input_ids.clone()`. -/
def tokenize_function (encode : String → List Nat) (padTokenId : Nat)
    (ex : TextRecord) : TokenizedExample :=
  let t := tokenizerCall encode padTokenId ex.text
  { input_ids := t.input_ids,
    attention_mask := t.attention_mask,
    labels := t.input_ids }

/-- The `TrainingArguments(...)` keyword arguments of `cpu_trainer.py`. -/
structure TrainingArgumentsConfig where
  output_dir : String
  num_train_epochs : Nat
  per_device_train_batch_size : Nat
  logging_steps : Nat
  report_to : String
  save_strategy : String
  device : String
  no_cuda : Bool
deriving DecidableEq, Repr

/-- The `training_args` object constructed in `cpu_trainer.py`. -/
def training_args : TrainingArgumentsConfig :=
  { output_dir := "./cpu_trained_model",
    num_train_epochs := 3,
    per_device_train_batch_size := 2,
    logging_steps := 10,
    report_to := "none",
    save_strategy := "epoch",
    device := "cpu",
    no_cuda := true }

/-- The `export` lines of the run instructions (notebook section 4, step 3),
as (variable, value) pairs. -/
def env_var_exports : List (String × String) :=
  [("CUDA_VISIBLE_DEVICES", ""),
   ("PYTORCH_CUDA_ALLOC_CONF", "garbage_collection_threshold:0.8,max_split_size_mb:512")]

/-- The device arguments of the explicit `.to(...)` calls on the model:
`model.to("cpu")`. -/
def model_device_moves : List String := ["cpu"]

/-- The device arguments of the explicit `.to(...)` calls on inference input
tensors: `input_ids.to("cpu")` at tokenization and again inside
`model.generate(...)`. -/
def inference_input_device_moves : List String := ["cpu", "cpu"]

/-- A character list starts with the given pattern. -/
def listStartsWith : List Char → List Char → Bool
  | _, [] => true
  | [], _ :: _ => false
  | c :: cs, p :: ps => (c == p) && listStartsWith cs ps

/-- A character list contains the given pattern as a contiguous run. -/
def listContainsSub (hay pat : List Char) : Bool :=
  listStartsWith hay pat ||
    match hay with
    | [] => false
    | _ :: rest => listContainsSub rest pat

/-- A string contains the given pattern as a substring. -/
def containsSubstr (s pat : String) : Bool := listContainsSub s.toList pat.toList

/-- The characters before the first space. -/
def takeUntilSpace : List Char → List Char
  | [] => []
  | c :: rest => if c == ' ' then [] else c :: takeUntilSpace rest

/-- The first space-separated word of a string. -/
def firstWord (s : String) : String := String.mk (takeUntilSpace s.toList)

/-- A string mentions CUDA (used to classify accelerator-related settings). -/
def mentionsCuda (s : String) : Bool := containsSubstr s "CUDA"

/-- The package-installation commands of the notebook's pip cell
(section 2), verbatim. -/
def pip_install_commands : List String :=
  ["pip install torch torchvision torchaudio --index-url https://download.pytorch.org/whl/cpu",
   "pip install --no-cache-dir --force-reinstall git+https://github.com/huggingface/transformers.git",
   "pip install datasets"]

/-- A pip command pins an explicit package version exactly when it carries a
`==` version specifier. -/
def pinsExplicitVersion (cmd : String) : Bool := containsSubstr cmd "=="

/-- The top-level framework calls of `cpu_trainer.py`, in source order
(function definitions are not calls and do not appear). -/
inductive TopLevelCall where
  | tokenizerLoad        -- AutoTokenizer.from_pretrained(MODEL_NAME)
  | datasetFromList      -- Dataset.from_list(mini_data)
  | datasetMap           -- dataset.map(tokenize_function)
  | datasetSetFormat     -- tokenized_dataset.set_format("torch")
  | datasetRemoveColumns -- tokenized_dataset.remove_columns(['text'])
  | trainingArgsInit     -- TrainingArguments(...)
  | modelLoad            -- AutoModelForCausalLM.from_pretrained(MODEL_NAME)
  | modelToCpu           -- model.to("cpu")
  | trainerInit          -- Trainer(...)
  | trainerTrain         -- trainer.train()
  | modelEvalMode        -- model.eval()
  | encodePrompt         -- tokenizer(prompt, ...).input_ids.to("cpu")
  | generateText         -- model.generate(...)
  | decodeOutput         -- tokenizer.decode(output[0], ...)
  | saveModel            -- model.save_pretrained(OUTPUT_DIR)
  | saveTokenizer        -- tokenizer.save_pretrained(OUTPUT_DIR)
deriving DecidableEq, Repr

/-- The script's top-level call sequence, in the order the statements occur
in `cpu_trainer.py`. -/
def script_call_sequence : List TopLevelCall :=
  [.tokenizerLoad, .datasetFromList, .datasetMap, .datasetSetFormat,
   .datasetRemoveColumns, .trainingArgsInit, .modelLoad, .modelToCpu,
   .trainerInit, .trainerTrain, .modelEvalMode, .encodePrompt,
   .generateText, .decodeOutput, .saveModel, .saveTokenizer]

/-- Every call satisfying `p` occurs strictly before every call satisfying
`q` in the sequence: once a `q`-call has been seen, no `p`-call follows, and
no call satisfies both at once. -/
def precedes (p q : TopLevelCall → Bool) : List TopLevelCall → Bool
  | [] => true
  | c :: rest =>
    (!(q c) || (!(p c) && rest.all fun d => !(p d))) && precedes p q rest

/-- The spec's "framework's pretrained-model loader" call. -/
def isModelLoaderCall : TopLevelCall → Bool
  | .modelLoad => true
  | _ => false

/-- The spec's "framework's dataset/tokenizer utilities": every call into
the tokenizer or the `datasets` library. -/
def isDataTokenizerUtilityCall : TopLevelCall → Bool
  | .tokenizerLoad => true
  | .datasetFromList => true
  | .datasetMap => true
  | .datasetSetFormat => true
  | .datasetRemoveColumns => true
  | .encodePrompt => true
  | .decodeOutput => true
  | _ => false

/-- The spec's "framework's generic trainer" calls. -/
def isTrainerCall : TopLevelCall → Bool
  | .trainerInit => true
  | .trainerTrain => true
  | _ => false

/-- The spec's "framework's text-generation utility" call. -/
def isGenerationCall : TopLevelCall → Bool
  | .generateText => true
  | _ => false

/-- The "save output to disk" calls. -/
def isSaveCall : TopLevelCall → Bool
  | .saveModel => true
  | .saveTokenizer => true
  | _ => false

/-- The call order asserted by the claim: model loader, then
dataset/tokenizer utilities, then trainer, then generation, then save. -/
def claimedPipelineOrder (seq : List TopLevelCall) : Bool :=
  precedes isModelLoaderCall isDataTokenizerUtilityCall seq &&
  precedes isDataTokenizerUtilityCall isTrainerCall seq &&
  precedes isTrainerCall isGenerationCall seq &&
  precedes isGenerationCall isSaveCall seq

/-- The phase each call belongs to in the order the script actually runs:
data/tokenizer setup, training configuration, model loading, training,
generation (with its prompt encoding and output decoding), saving. -/
def phaseIndex : TopLevelCall → Nat
  | .tokenizerLoad => 0
  | .datasetFromList => 0
  | .datasetMap => 0
  | .datasetSetFormat => 0
  | .datasetRemoveColumns => 0
  | .trainingArgsInit => 1
  | .modelLoad => 2
  | .modelToCpu => 2
  | .trainerInit => 3
  | .trainerTrain => 3
  | .modelEvalMode => 4
  | .encodePrompt => 4
  | .generateText => 4
  | .decodeOutput => 4
  | .saveModel => 5
  | .saveTokenizer => 5

/-- A list of naturals is sorted in non-decreasing order. -/
def nondecreasing : List Nat → Bool
  | [] => true
  | [_] => true
  | a :: b :: rest => Nat.ble a b && nondecreasing (b :: rest)

/-- A target of the Makefile: its name, its `##` doc comment, and its
recipe lines (verbatim, tabs dropped, the continuation lines of the
`docker run` recipe joined). -/
structure MakeTarget where
  name : String
  doc : String
  recipe : List String
deriving DecidableEq, Repr

/-- `.DEFAULT_GOAL := all` from the Makefile. -/
def makefile_default_goal : String := "all"

/-- The Makefile's targets, in file order. -/
def makefile_targets : List MakeTarget :=
  [{ name := "all", doc := "Show the available make targets.",
     recipe := ["@echo \"Usage: make <target>\"",
                "@echo \"\"",
                "@echo \"Targets:\"",
                "@fgrep \"##\" Makefile | fgrep -v fgrep"] },
   { name := "clean", doc := "Clean the temporary files.",
     recipe := ["rm -rf .pytest_cache",
                "rm -rf .mypy_cache",
                "rm -rf .coverage",
                "rm -rf .ruff_cache",
                "rm -rf megalinter-reports"] },
   { name := "format", doc := "Format the code.",
     recipe := ["poetry run black .",
                "poetry run ruff check . --fix"] },
   { name := "lint", doc := "Run all linters (black/ruff/pylint/mypy).",
     recipe := ["poetry run black --check .",
                "poetry run ruff check .",
                "make mypy"] },
   { name := "test", doc := "Run the tests and check coverage.",
     recipe := ["poetry run pytest -n auto --cov=twenty_percent --cov-report term-missing --cov-fail-under=100"] },
   { name := "mypy", doc := "Run mypy.",
     recipe := ["poetry run mypy twenty_percent"] },
   { name := "install", doc := "Install the dependencies excluding dev.",
     recipe := ["poetry install --only main"] },
   { name := "install-dev", doc := "Install the dependencies including dev.",
     recipe := ["poetry install"] },
   { name := "megalint", doc := "Run the mega-linter.",
     recipe := ["docker run --platform linux/amd64 --rm -v /var/run/docker.sock:/var/run/docker.sock:rw -v $(shell pwd):/tmp/lint:rw oxsecurity/megalinter:v7"] }]

/-- A recipe line with make's echo-suppression marker `@` removed. -/
def stripAtSign (line : String) : String :=
  match line.toList with
  | '@' :: rest => String.mk rest
  | _ => line

/-- The program a recipe line invokes: its first word (after `@`). -/
def recipeTool (line : String) : String := firstWord (stripAtSign line)

/-- The standard third-party developer tools the Makefile shells out to. -/
def thirdPartyTools : List String :=
  ["rm", "poetry", "make", "docker", "echo", "fgrep"]

/-- A recipe line would carry custom exit-code or flag semantics if it used
make's ignore-errors marker `-`, a shell `||` exit-code override, or an
explicit `exit`. -/
def hasCustomExitSemantics (line : String) : Bool :=
  listStartsWith line.toList ['-'] ||
  containsSubstr (stripAtSign line) "||" ||
  containsSubstr (stripAtSign line) "exit "

/-- If extracting a key's elements succeeded and stacking them succeeds,
the collator's per-key step assigns the stacked tensor to the batch. -/
theorem collateKey_stack_ok (features : List PyFeature) (key : String)
    (es : List PyObj) (t : PyObj)
    (h1 : getElements features key = .ok es) (h2 : torchStack es = .ok t) :
    (collateKey features key).2 = .ok (some t) := by
  cases features with
  | nil =>
    have hes : es = [] := by
      simp [getElements] at h1
      exact h1
    rw [hes] at h2
    simp [torchStack] at h2
  | cons f rest =>
    cases hg : getItem f key with
    | error e => simp [getElements, hg] at h1
    | ok v => simp [collateKey, firstFeatureItem, hg, h1, h2]

/-- Under per-key stackability, the collator's key loop computes exactly the
default stack-based collation of those keys. -/
theorem collateKeys_eq_stackAllKeys (features : List PyFeature) (keys : List String)
    (h : ∀ k ∈ keys, ∃ es t, getElements features k = .ok es ∧ torchStack es = .ok t) :
    (collateKeys features keys).2 = stackAllKeys features keys := by
  induction keys with
  | nil => rfl
  | cons k ks ih =>
    obtain ⟨es, t, h1, h2⟩ := h k (List.mem_cons_self k ks)
    have hk : (collateKey features k).2 = .ok (some t) :=
      collateKey_stack_ok features k es t h1 h2
    have htail := ih (fun k' hk' => h k' (List.mem_cons_of_mem _ hk'))
    cases hck : collateKey features k with
    | mk ps r =>
      have hr : r = .ok (some t) := by rw [hck] at hk; exact hk
      subst hr
      cases hcks : collateKeys features ks with
      | mk ps2 r2 =>
        have hr2 : r2 = stackAllKeys features ks := by rw [hcks] at htail; exact htail
        subst hr2
        simp [collateKeys, hck, hcks, stackAllKeys, h1, h2]
        cases stackAllKeys features ks <;> simp

/-- Claim C1 counterexample: on a batch whose `"labels"` values are Python
lists, stacking fails with a `TypeError`, yet `custom_data_collator` returns
normally (with an empty batch) instead of letting the error propagate — the
collator does suppress a collation error, refuting the claim that its only
behavior is to print the error text and let the error propagate. -/
theorem C1_collator_suppression_counterexample :
    torchStack [PyObj.pylist [], PyObj.pylist []] =
      .error (.typeError "expected Tensor as element 0 in argument 0, but got list") ∧
    (custom_data_collator
      [PyFeature.dict [("labels", PyObj.pylist [])],
       PyFeature.dict [("labels", PyObj.pylist [])]]).2 = .ok [] :=
  ⟨rfl, rfl⟩

/-- Claim C1 (amended): in the collator's per-key loop body (`collateKey`,
the body of `custom_data_collator`'s `for key in features[0].keys()` loop),
when stacking a key's extracted elements fails with a `TypeError` the
collator prints the framework's error text and suppresses the error,
omitting the key from the batch; when stacking fails with any other
(RuntimeError) failure, the error propagates to the caller uncaught. -/
theorem C1_collator_error_behavior (features : List PyFeature) (key : String)
    (v0 : PyObj) (es : List PyObj)
    (h0 : firstFeatureItem features key = .ok v0)
    (h1 : getElements features key = .ok es) :
    (∀ msg, torchStack es = .error (.typeError msg) →
      (collateKey features key).2 = .ok none ∧
      ("  TypeError during torch.stack for key '" ++ key ++ "': " ++ msg) ∈
        (collateKey features key).1) ∧
    (∀ msg, torchStack es = .error (.runtimeError msg) →
      (collateKey features key).2 = .error (.runtimeError msg)) := by
  constructor
  · intro msg h2
    constructor
    · simp [collateKey, h0, h1, h2]
    · simp [collateKey, h0, h1, h2]
  · intro msg h2
    simp [collateKey, h0, h1, h2]

/-- Witness for C1 (amended), at the batch of the counterexample: the
`TypeError` is printed and suppressed and the key is omitted. -/
theorem C1_collator_error_behavior_witness :
    (collateKey
      [PyFeature.dict [("labels", PyObj.pylist [])],
       PyFeature.dict [("labels", PyObj.pylist [])]] "labels").2 = .ok none ∧
    ("  TypeError during torch.stack for key 'labels': expected Tensor as element 0 in argument 0, but got list") ∈
      (collateKey
        [PyFeature.dict [("labels", PyObj.pylist [])],
         PyFeature.dict [("labels", PyObj.pylist [])]] "labels").1 :=
  (C1_collator_error_behavior
      [PyFeature.dict [("labels", PyObj.pylist [])],
       PyFeature.dict [("labels", PyObj.pylist [])]] "labels"
      (PyObj.pylist []) [PyObj.pylist [], PyObj.pylist []] rfl rfl).1
    "expected Tensor as element 0 in argument 0, but got list" rfl

/-- Claim C2: on a non-empty list of dict-shaped features whose values are
stackable tensors (extracting each key's elements succeeds and `torch.stack`
succeeds on them), `custom_data_collator` returns exactly the batch of the
default stack-based collation: the first feature's keys, each mapped to the
stack of that key's tensors across the features, and nothing else. The
printing is confined to the first component and adds no behavioral
difference to the returned batch. -/
theorem C2_collator_refines_default_collation (features : List PyFeature)
    (entries : List (String × PyObj)) (rest : List PyFeature)
    (hf : features = PyFeature.dict entries :: rest)
    (h : ∀ k ∈ entries.map Prod.fst, ∃ es t,
        getElements features k = .ok es ∧ torchStack es = .ok t) :
    (custom_data_collator features).2 = default_stack_collation features := by
  subst hf
  have hmain := collateKeys_eq_stackAllKeys (PyFeature.dict entries :: rest)
    (entries.map Prod.fst) h
  cases hck : collateKeys (PyFeature.dict entries :: rest) (entries.map Prod.fst) with
  | mk ps r =>
    have hr : r = stackAllKeys (PyFeature.dict entries :: rest) (entries.map Prod.fst) := by
      rw [hck] at hmain; exact hmain
    simp [custom_data_collator, default_stack_collation, hck, ← hr]
    cases r <;> simp

/-- Witness for C2: a concrete two-feature batch of shape-`[32]` tensors
collates to the default stacked batch. -/
theorem C2_collator_refines_default_collation_witness :
    (custom_data_collator
      [PyFeature.dict [("input_ids", PyObj.tensor [32])],
       PyFeature.dict [("input_ids", PyObj.tensor [32])]]).2 =
    default_stack_collation
      [PyFeature.dict [("input_ids", PyObj.tensor [32])],
       PyFeature.dict [("input_ids", PyObj.tensor [32])]] :=
  C2_collator_refines_default_collation
    [PyFeature.dict [("input_ids", PyObj.tensor [32])],
     PyFeature.dict [("input_ids", PyObj.tensor [32])]]
    [("input_ids", PyObj.tensor [32])]
    [PyFeature.dict [("input_ids", PyObj.tensor [32])]]
    rfl
    (by
      intro k hk
      simp at hk
      subst hk
      exact ⟨[PyObj.tensor [32], PyObj.tensor [32]], PyObj.tensor [2, 32], rfl, rfl⟩)

/-- Claim C4: evaluation of the notebook's pip cell against its own prose.
The cell's prose announces installation "with specific versions to ensure
reproducibility", but every one of its three commands is unpinned: none
carries a `==` version specifier (the torch line selects CPU wheels by index
URL only, transformers is installed from the moving development branch, and
datasets at whatever the latest release is). The claim's pinned-version
property fails on every command, exhibited here at `pip install datasets`. -/
theorem C4_no_install_command_pins_a_version :
    "pip install datasets" ∈ pip_install_commands ∧
    pinsExplicitVersion "pip install datasets" = false ∧
    pip_install_commands.all (fun c => !pinsExplicitVersion c) = true := by
  refine ⟨by decide, by decide, by decide⟩

/-- Claim C5: the hardcoded dataset has exactly four text records, and for
every example (hence every element of `mini_data`) and every underlying raw
encoding, `tokenize_function` — which tokenizes with truncation and padding
to the fixed maximum length 32 — returns `input_ids`, `attention_mask`, and
`labels` each of length exactly 32. -/
theorem C5_four_examples_all_fields_length_32 (encode : String → List Nat)
    (padTokenId : Nat) (ex : TextRecord) :
    mini_data.length = 4 ∧
    (tokenize_function encode padTokenId ex).input_ids.length = 32 ∧
    (tokenize_function encode padTokenId ex).attention_mask.length = 32 ∧
    (tokenize_function encode padTokenId ex).labels.length = 32 := by
  refine ⟨rfl, ?_, ?_, ?_⟩ <;>
    simp [tokenize_function, tokenizerCall]

/-- Claim C6 counterexample: the claimed order — pretrained-model loader
first, then dataset/tokenizer utilities, then trainer, then generation,
then save — is false for the script's actual top-level call sequence: the
tokenizer is loaded (and the dataset built and tokenized) before the model
is loaded. -/
theorem C6_claimed_call_order_counterexample :
    claimedPipelineOrder script_call_sequence = false := by decide

/-- Claim C6 (amended): the script's top-level calls are ordered by phase —
dataset/tokenizer setup first, then construction of the training
configuration, then the pretrained-model loader (and move to CPU), then the
generic trainer, then text generation (with its prompt encoding and output
decoding), then saving to disk; in particular every trainer call precedes
the generation call and the generation call precedes both save calls. -/
theorem C6_actual_call_order :
    nondecreasing (script_call_sequence.map phaseIndex) = true ∧
    precedes isTrainerCall isGenerationCall script_call_sequence = true ∧
    precedes isGenerationCall isSaveCall script_call_sequence = true := by
  refine ⟨by decide, by decide, by decide⟩

/-- Claim C7: the Makefile exposes exactly the targets `all`, `clean`,
`format`, `lint`, `test`, `mypy`, `install`, `install-dev`, `megalint`; the
target `all` (also the default goal) lists the available targets — its
recipe prints every `##`-documented target line, and every target carries
such a doc line; and every recipe line only shells out to a standard
third-party developer tool (`rm`, `poetry`, `make`, `docker`, `echo`,
`fgrep`) with no ignore-error marker, `||` exit-code override, or explicit
`exit`. -/
theorem C7_makefile_targets_and_tools :
    makefile_targets.map MakeTarget.name =
      ["all", "clean", "format", "lint", "test", "mypy", "install",
       "install-dev", "megalint"] ∧
    makefile_default_goal = "all" ∧
    ((makefile_targets.find? (fun t => t.name == "all")).map
      (fun t => t.recipe.contains "@fgrep \"##\" Makefile | fgrep -v fgrep")) =
      some true ∧
    makefile_targets.all (fun t => !(t.doc == "")) = true ∧
    makefile_targets.all (fun t => t.recipe.all (fun l =>
      thirdPartyTools.contains (recipeTool l) && !hasCustomExitSemantics l)) = true := by
  refine ⟨by decide, rfl, by decide, by decide, by decide⟩

/-- Claim C8 counterexample: the run instructions export a further
accelerator-related setting — the CUDA allocator tuning variable
`PYTORCH_CUDA_ALLOC_CONF` — which is neither the use-CPU-only flag nor the
instruction blanking accelerator visibility (`CUDA_VISIBLE_DEVICES=""`), so
the latter two are not the repository's *only* accelerator-related
configuration. -/
theorem C8_accelerator_config_counterexample :
    ("PYTORCH_CUDA_ALLOC_CONF",
      "garbage_collection_threshold:0.8,max_split_size_mb:512") ∈ env_var_exports ∧
    mentionsCuda "PYTORCH_CUDA_ALLOC_CONF" = true ∧
    "PYTORCH_CUDA_ALLOC_CONF" ≠ "CUDA_VISIBLE_DEVICES" ∧
    "garbage_collection_threshold:0.8,max_split_size_mb:512" ≠ "" := by
  refine ⟨by decide, by decide, by decide, by decide⟩

/-- Claim C8 (amended): apart from the CUDA allocator tuning variable
`PYTORCH_CUDA_ALLOC_CONF`, the accelerator-related configuration is exactly
as claimed: the training configuration sets `device` to `"cpu"` and
`no_cuda` to `True`, the model and both inference input tensors are
explicitly moved to `"cpu"`, and the run instructions set
`CUDA_VISIBLE_DEVICES` to the empty string; every CUDA-mentioning exported
variable is one of those two. -/
theorem C8_accelerator_config_amended :
    training_args.device = "cpu" ∧
    training_args.no_cuda = true ∧
    model_device_moves = ["cpu"] ∧
    inference_input_device_moves = ["cpu", "cpu"] ∧
    ("CUDA_VISIBLE_DEVICES", "") ∈ env_var_exports ∧
    env_var_exports.all (fun kv => !(mentionsCuda kv.1) ||
      ((kv.1 == "CUDA_VISIBLE_DEVICES") && (kv.2 == "")) ||
      (kv.1 == "PYTORCH_CUDA_ALLOC_CONF")) = true := by
  refine ⟨rfl, rfl, rfl, rfl, by decide, by decide⟩

/-- Claim C9: for every input example and underlying raw encoding, the
`labels` field returned by `tokenize_function` is exactly the `input_ids`
field of the same example — a clone, not a shift or other transform. -/
theorem C9_labels_equal_input_ids (encode : String → List Nat)
    (padTokenId : Nat) (ex : TextRecord) :
    (tokenize_function encode padTokenId ex).labels =
      (tokenize_function encode padTokenId ex).input_ids := rfl

/-- Claim C10: called on an empty features list, `custom_data_collator`
raises no error and returns an empty dict, printing only the three outer
diagnostic lines. -/
theorem C10_empty_features_empty_batch :
    (custom_data_collator []).2 = .ok [] ∧
    (custom_data_collator []).1 =
      ["\n--- Inside data collator ---", "Type of 'features': <class 'list'>",
       "--- End data collator ---\n"] :=
  ⟨rfl, rfl⟩
